import Mathlib

/-!
Verification development for the UAV detection-system dashboard frontend.

We give a shallow embedding of the parts of the TypeScript source that the
specification talks about:

* the path-planning page's `generatePath` (PathPlanning.tsx),
* the Dashboard's WebSocket message handler, restricted to its alert list
  (the `handleWsMessage` alert branch),
* the `useWebSocket` reconnecting-socket hook (its state machine over
  transport events, timers, effect cleanup, and `send`),
* the server-side broadcast dispatcher described by the spec (its code is
  not part of the supplied sources, so it is modelled from the spec).

Numbers that the source manipulates as IEEE doubles are modelled as
rationals; the transcendental helpers `Math.sin`, `Math.sqrt`, the constant
`Math.PI` and the sample `Math.random()` are passed in as parameters, since
the claims under study depend only on the algebraic structure around them.
-/

namespace PathPlan

/-- A clicked waypoint on the planning page (`WaypointData` in
PathPlanning.tsx): an id plus latitude/longitude. -/
structure Waypoint where
  id : Int
  lat : ℚ
  lng : ℚ
  deriving DecidableEq, Repr

/-- The numeric content of the `pathInfo` summary set by `generatePath`:
total distance, waypoint count, estimated flight time and the reported
planning time (the source formats these as strings; we keep the numbers). -/
structure PathSummary where
  distance : ℚ
  waypointCount : Nat
  timeMin : ℚ
  planTime : ℚ
  deriving DecidableEq, Repr

/-- The slice of the planning page's React state that `generatePath`
reads or writes: the waypoint list, the planned path and the summary. -/
structure PlanState where
  waypoints : List Waypoint
  plannedPath : List (ℚ × ℚ)
  pathSummary : Option PathSummary
  deriving DecidableEq, Repr

/-- One segment of the generated path: the inner loop of `generatePath`,
`for s in 0..=steps` with `steps = 10`, `t = s / steps`,
`jitter = Math.sin(t * Math.PI) * 0.0005`, pushing
`[a.lat + (b.lat - a.lat) * t + jitter, a.lng + (b.lng - a.lng) * t + jitter]`.
`sinf` stands for `Math.sin` and `piq` for `Math.PI`. -/
def segmentPoints (sinf : ℚ → ℚ) (piq : ℚ) (a b : Waypoint) : List (ℚ × ℚ) :=
  (List.range 11).map (fun s =>
    let t : ℚ := (s : ℚ) / 10
    let jitter : ℚ := sinf (t * piq) * 0.0005
    (a.lat + (b.lat - a.lat) * t + jitter,
     a.lng + (b.lng - a.lng) * t + jitter))

/-- The outer loop of `generatePath`: `for i in 0..waypoints.length-2`,
appending the segment between consecutive waypoints `i` and `i + 1`. -/
def pathPoints (sinf : ℚ → ℚ) (piq : ℚ) : List Waypoint → List (ℚ × ℚ)
  | [] => []
  | [_] => []
  | a :: b :: rest => segmentPoints sinf piq a b ++ pathPoints sinf piq (b :: rest)

/-- The mock-stats distance loop of `generatePath`:
`for i in 1..waypoints.length-1`, with
`dx = (w[i].lat - w[i-1].lat) * 111320`,
`dy = (w[i].lng - w[i-1].lng) * 111320 * 0.85`, summing
`Math.sqrt(dx*dx + dy*dy)`; `sqrtf` stands for `Math.sqrt`. -/
def totalDistance (sqrtf : ℚ → ℚ) (ws : List Waypoint) : ℚ :=
  ((ws.zip ws.tail).map (fun p =>
    let dx : ℚ := (p.2.lat - p.1.lat) * 111320
    let dy : ℚ := (p.2.lng - p.1.lng) * 111320 * 0.85
    sqrtf (dx * dx + dy * dy))).sum

/-- The planning page's `generatePath`: returns early when fewer than two
waypoints are present; otherwise sets `plannedPath` to the interpolated
points and `pathSummary` to the mock statistics, where `rand` stands for
the `Math.random()` sample in `planTime = Math.random() * 50 + 10` and
`speed` is the configured flight speed. -/
def generatePath (sinf sqrtf : ℚ → ℚ) (piq rand speed : ℚ)
    (st : PlanState) : PlanState :=
  if st.waypoints.length < 2 then st
  else
    let points := pathPoints sinf piq st.waypoints
    let totalDist := totalDistance sqrtf st.waypoints
    { st with
      plannedPath := points
      pathSummary := some
        { distance := totalDist
          waypointCount := st.waypoints.length
          timeMin := totalDist / speed / 60
          planTime := rand * 50 + 10 } }

end PathPlan

namespace Dash

/-- A message received on the Dashboard's WebSocket, as used by
`handleWsMessage`: a `type` discriminator plus the alert fields the
component stores (`level`, `message`, `timestamp`); the telemetry and
stats bodies do not touch the alert list and are omitted. -/
structure DashMsg where
  type : String
  level : String := ""
  message : String := ""
  timestamp : String := ""
  deriving DecidableEq, Repr

/-- The alert-list projection of the Dashboard's `handleWsMessage`: the
branch cascade on `data.type`, where only the `alert` branch touches the
alert list, via `setAlerts(prev => [data, ...prev].slice(0, 10))`. -/
def handleWsMessageAlerts (alerts : List DashMsg) (data : DashMsg) : List DashMsg :=
  if data.type = "telemetry" then alerts
  else if data.type = "stats" then alerts
  else if data.type = "alert" then (data :: alerts).take 10
  else alerts

/-- The Dashboard's alert list after a sequence of incoming WebSocket
messages, starting from the initial `useState([])`. -/
def runAlerts (evs : List DashMsg) : List DashMsg :=
  evs.foldl handleWsMessageAlerts []

end Dash

namespace ReconnectSocket

/-- A WebSocket transport's `readyState` as the hook observes it:
`connecting` after construction, `opened` once the open event fires,
`closing` after `close()` is called, `closed` once the close event has
been delivered. -/
inductive RS
  | connecting
  | opened
  | closing
  | closed
  deriving DecidableEq, Repr

/-- The `UseWebSocketOptions` of `useWebSocket`, together with the two
platform functions the hook closes over: `parse` stands for the
`JSON.parse` attempt on an incoming frame (`none` when it would throw)
and `serialize` for `JSON.stringify` on a non-string argument of `send`.
The defaults mirror the source (`enabled = true`,
`reconnectInterval = 3000`). -/
structure Config (V : Type) where
  url : String
  enabled : Bool := true
  reconnectInterval : Nat := 3000
  parse : String → Option V
  serialize : V → String

/-- The observable state of one `useWebSocket` instance: the `connected`
and `lastMessage` React states, whether `wsRef.current` is non-null,
the readyState of the most recently constructed socket (`none` before
any construction), whether a reconnect timeout is pending and with what
delay, the log of `onMessage` callback invocations, and the frames
actually handed to the transport by `send`. -/
structure HState (V : Type) where
  connected : Bool
  lastMessage : Option V
  wsRef : Bool
  socket : Option RS
  reconnectTimer : Option Nat
  callbackLog : List V
  sentFrames : List String
  deriving DecidableEq, Repr

/-- The state at mount, before the effect runs `connect`. -/
def init (V : Type) : HState V :=
  { connected := false
    lastMessage := none
    wsRef := false
    socket := none
    reconnectTimer := none
    callbackLog := []
    sentFrames := [] }

/-- The hook's `connect`: returns immediately when `enabled` is false;
otherwise constructs a WebSocket. `ctorOk = true` is the normal case
(`wsRef.current := ws`, handlers installed, socket connecting);
`ctorOk = false` is the constructor throwing, caught by the
`catch` block which schedules `setTimeout(connect, reconnectInterval)`. -/
def connect {V : Type} (cfg : Config V) (ctorOk : Bool) (s : HState V) : HState V :=
  if cfg.enabled = false then s
  else if ctorOk then
    { s with wsRef := true, socket := some RS.connecting }
  else
    { s with reconnectTimer := some cfg.reconnectInterval }

/-- The argument of a `send` call: either a string (sent verbatim) or a
structured value (passed through `JSON.stringify`). -/
inductive SendArg (V : Type)
  | str (s : String)
  | val (v : V)

/-- The frame `send` hands to the transport for a given argument:
`typeof data === 'string' ? data : JSON.stringify(data)`. -/
def sendFrame {V : Type} (cfg : Config V) : SendArg V → String
  | .str s => s
  | .val v => cfg.serialize v

/-- The events that drive one `useWebSocket` instance: the transport
events delivered to the current socket's handlers (`openEvt`, `message`,
`closeEvt`, `errorEvt`), the pending reconnect timeout firing
(`timerFire`, with the constructor outcome of the `connect` it runs),
the effect cleanup, and a `send` call. -/
inductive Ev (V : Type)
  | openEvt
  | message (frame : String)
  | closeEvt
  | errorEvt
  | timerFire (ctorOk : Bool)
  | cleanup
  | send (d : SendArg V)

/-- One step of the hook. Each branch is the corresponding handler of the
source: `ws.onopen` sets `connected`, clears and nulls any pending
reconnect timeout; `ws.onmessage` tries `JSON.parse`, on success stores
`lastMessage` and invokes the callback, on failure ignores the frame;
`ws.onclose` clears `connected`, nulls `wsRef` and, when `enabled`,
schedules `setTimeout(connect, reconnectInterval)`; `ws.onerror` calls
`ws.close()` (moving the transport to closing — its close event is
delivered later as a `closeEvt`); a pending timeout firing runs
`connect`; the effect cleanup clears any pending timeout and, when
`wsRef.current` is non-null, calls `close()` on it and nulls the ref
(the socket object keeps its handlers, so its close event is still
delivered afterwards); `send` transmits only when `wsRef.current` is
non-null and its readyState is OPEN. Transport events aimed at a socket
that does not exist, or whose close event has already fired, have no
effect. -/
def step {V : Type} (cfg : Config V) (s : HState V) : Ev V → HState V
  | .openEvt =>
    if s.socket = some RS.connecting then
      { s with socket := some RS.opened, connected := true, reconnectTimer := none }
    else s
  | .message f =>
    if s.socket = some RS.opened then
      match cfg.parse f with
      | some v => { s with lastMessage := some v, callbackLog := s.callbackLog ++ [v] }
      | none => s
    else s
  | .closeEvt =>
    match s.socket with
    | some RS.closed => s
    | none => s
    | some _ =>
      { s with socket := some RS.closed, connected := false, wsRef := false
               reconnectTimer :=
                 if cfg.enabled then some cfg.reconnectInterval else s.reconnectTimer }
  | .errorEvt =>
    match s.socket with
    | some RS.connecting => { s with socket := some RS.closing }
    | some RS.opened => { s with socket := some RS.closing }
    | _ => s
  | .timerFire ctorOk =>
    if s.reconnectTimer.isSome then
      connect cfg ctorOk { s with reconnectTimer := none }
    else s
  | .cleanup =>
    let s1 := { s with reconnectTimer := none }
    if s1.wsRef then
      { s1 with wsRef := false
                socket :=
                  match s1.socket with
                  | some RS.connecting => some RS.closing
                  | some RS.opened => some RS.closing
                  | o => o }
    else s1
  | .send d =>
    if s.wsRef = true ∧ s.socket = some RS.opened then
      { s with sentFrames := s.sentFrames ++ [sendFrame cfg d] }
    else s

/-- The hook's execution: the mount effect runs `connect` (with the given
constructor outcome), then the environment delivers a sequence of
events. -/
def run {V : Type} (cfg : Config V) (ctorOk : Bool) (evs : List (Ev V)) : HState V :=
  evs.foldl (step cfg) (connect cfg ctorOk (init V))

/-- The scheme part of the URL built by `connect`:
`window.location.protocol === 'https:' ? 'wss:' : 'ws:'`. -/
def wsProtocol (pageProtocol : String) : String :=
  if pageProtocol = "https:" then "wss:" else "ws:"

/-- The transport URL built by `connect`:
`` `${protocol}//${host}${url}` `` from the page's protocol, the page's
host and the configured path. -/
def wsUrl (pageProtocol host url : String) : String :=
  wsProtocol pageProtocol ++ "//" ++ host ++ url

end ReconnectSocket

namespace Registry

/-- The outcome of one broadcast call: the registry after the call (the
connections still registered on the channel), the connections that
received the event, and the connections to which delivery was attempted. -/
structure BroadcastResult where
  registry : List Nat
  delivered : List Nat
  attempted : List Nat
  deriving DecidableEq, Repr

/-- Modelled from the spec: the server-side Connection Registry's
`broadcast(channel, event)` is not among the supplied sources (only the
dashboard client is). Per the spec it iterates over the snapshot of the
connections registered on the channel when iteration begins, delivers
the event to each, and a connection whose delivery fails (transport
already closed) is unregistered as a side effect without aborting
delivery to the rest; the failure never raises to the caller.
Connections are handles (here `Nat`) and `deliverOk c` says whether
delivery to `c` succeeds in this call. The function is total: no
exception escapes. -/
def broadcast (deliverOk : Nat → Bool) : List Nat → BroadcastResult
  | [] => { registry := [], delivered := [], attempted := [] }
  | c :: rest =>
    let r := broadcast deliverOk rest
    if deliverOk c then
      { registry := c :: r.registry
        delivered := c :: r.delivered
        attempted := c :: r.attempted }
    else
      { registry := r.registry
        delivered := r.delivered
        attempted := c :: r.attempted }

end Registry

namespace Inst

/-- A dashboard hook configuration with the source defaults
(`enabled = true`, `reconnectInterval = 3000`) and a parse function that
rejects every frame. -/
def cfg0 : ReconnectSocket.Config Nat :=
  { url := "/api/ws/dashboard"
    parse := fun _ => none
    serialize := fun _ => "" }

/-- A hook configuration whose parse function accepts exactly the frame
"ok" (as the value 1), standing for a JSON parse that succeeds on one
frame and throws on the rest. -/
def cfgJ : ReconnectSocket.Config Nat :=
  { url := "/api/ws/dashboard"
    parse := fun f => if f = "ok" then some 1 else none
    serialize := fun _ => "1" }

/-- A delivery outcome where connection 2 fails and every other
connection succeeds. -/
def d2 : Nat → Bool := fun c => decide (c ≠ 2)

/-- A concrete stand-in for `Math.sin`. -/
def sinf0 : ℚ → ℚ := fun _ => 0

/-- A concrete stand-in for `Math.sqrt`. -/
def sqrtf0 : ℚ → ℚ := fun x => x

/-- A planning-page state holding two clicked waypoints. -/
def st2 : PathPlan.PlanState :=
  { waypoints := [{ id := 1, lat := 0, lng := 0 }, { id := 2, lat := 1, lng := 1 }]
    plannedPath := []
    pathSummary := none }

/-- A planning-page state holding a single clicked waypoint. -/
def st1 : PathPlan.PlanState :=
  { waypoints := [{ id := 1, lat := 0, lng := 0 }]
    plannedPath := [(5, 5)]
    pathSummary := some { distance := 1, waypointCount := 1, timeMin := 1, planTime := 11 } }

end Inst

/-- Invariant of the hook state: while `connected` is true, no reconnect
timeout is pending. -/
def ConnInv {V : Type} (s : ReconnectSocket.HState V) : Prop :=
  s.connected = true → s.reconnectTimer = none

/-- Invariant of the hook state: any pending reconnect timeout was
scheduled with the configured `reconnectInterval`. -/
def TimerInv {V : Type} (cfg : ReconnectSocket.Config V)
    (s : ReconnectSocket.HState V) : Prop :=
  ∀ d, s.reconnectTimer = some d → d = cfg.reconnectInterval

/-- Claim C7: the Client Reconnecting Socket derives the transport URL
from the page's own scheme — `wss:` exactly when the hosting page was
loaded over `https:`, `ws:` otherwise — connecting to the same host as
the page with the configured path appended. -/
theorem wsUrl_scheme (pageProtocol host url : String) :
    (pageProtocol = "https:" →
      ReconnectSocket.wsUrl pageProtocol host url = "wss://" ++ host ++ url) ∧
    (pageProtocol ≠ "https:" →
      ReconnectSocket.wsUrl pageProtocol host url = "ws://" ++ host ++ url) ∧
    (ReconnectSocket.wsProtocol pageProtocol = "wss:" ↔ pageProtocol = "https:") := by
  refine ⟨fun h => ?_, fun h => ?_, ?_⟩
  · simp [ReconnectSocket.wsUrl, ReconnectSocket.wsProtocol, h]
  · simp [ReconnectSocket.wsUrl, ReconnectSocket.wsProtocol, h]
  · constructor
    · intro h
      by_contra hc
      simp [ReconnectSocket.wsProtocol, hc] at h
    · intro h
      simp [ReconnectSocket.wsProtocol, h]

/-- Claim C7 witness: the URL derivation evaluated on a secure and an
insecure page location. -/
theorem wsUrl_scheme_witness :
    ReconnectSocket.wsUrl "https:" "example.com" "/api/ws/dashboard"
      = "wss://example.com/api/ws/dashboard" ∧
    ReconnectSocket.wsUrl "http:" "example.com" "/api/ws/dashboard"
      = "ws://example.com/api/ws/dashboard" :=
  ⟨(wsUrl_scheme "https:" "example.com" "/api/ws/dashboard").1 rfl,
   (wsUrl_scheme "http:" "example.com" "/api/ws/dashboard").2.1 (by decide)⟩

/-- Claim C10: calling the planning page's `generatePath` with fewer than
two waypoints is a no-op — the planned path, the path-info summary and
the waypoint list are all unchanged, and no error is raised (the model
is a total function returning the state itself). -/
theorem generatePath_noop_short (sinf sqrtf : ℚ → ℚ) (piq rand speed : ℚ)
    (st : PathPlan.PlanState) (h : st.waypoints.length < 2) :
    PathPlan.generatePath sinf sqrtf piq rand speed st = st := by
  unfold PathPlan.generatePath
  rw [if_pos h]

/-- Claim C10 witness: `generatePath` on a single-waypoint state leaves
the state untouched. -/
theorem generatePath_noop_short_witness :
    Inst.st1.waypoints.length < 2 ∧
    PathPlan.generatePath Inst.sinf0 Inst.sqrtf0 0 0 8 Inst.st1 = Inst.st1 :=
  ⟨by decide, generatePath_noop_short Inst.sinf0 Inst.sqrtf0 0 0 8 Inst.st1 (by decide)⟩

/-- Claim C1, evaluated at the failing input: disposing the hook while a
transport is open does clear the pending timer during cleanup, but the
closed transport's close event still runs `ws.onclose` afterwards, which
re-schedules a 3000 ms reconnect timer (there is no stopped flag), and
when that timer fires a fresh connection attempt is made — a background
timer survives the shutdown, contradicting the claimed cancellation
guarantee. -/
theorem cleanup_close_reschedules_timer :
    (ReconnectSocket.run Inst.cfg0 true
      [ReconnectSocket.Ev.openEvt, ReconnectSocket.Ev.cleanup]).reconnectTimer = none ∧
    (ReconnectSocket.run Inst.cfg0 true
      [ReconnectSocket.Ev.openEvt, ReconnectSocket.Ev.cleanup,
       ReconnectSocket.Ev.closeEvt]).reconnectTimer = some 3000 ∧
    (ReconnectSocket.step Inst.cfg0
      (ReconnectSocket.run Inst.cfg0 true
        [ReconnectSocket.Ev.openEvt, ReconnectSocket.Ev.cleanup,
         ReconnectSocket.Ev.closeEvt])
      (ReconnectSocket.Ev.timerFire true)).socket = some ReconnectSocket.RS.connecting :=
  ⟨rfl, rfl, rfl⟩

/-- The alert branch of `handleWsMessage`: an event whose `type` is
`alert` is prepended and the list truncated to its first 10 entries. -/
theorem handleWsMessageAlerts_of_alert (l : List Dash.DashMsg) (d : Dash.DashMsg)
    (h : d.type = "alert") : Dash.handleWsMessageAlerts l d = (d :: l).take 10 := by
  simp [Dash.handleWsMessageAlerts, h]

/-- Every other branch of `handleWsMessage` leaves the alert list alone. -/
theorem handleWsMessageAlerts_of_other (l : List Dash.DashMsg) (d : Dash.DashMsg)
    (h : ¬ d.type = "alert") : Dash.handleWsMessageAlerts l d = l := by
  unfold Dash.handleWsMessageAlerts
  split_ifs <;> simp_all

/-- Truncating the right summand of an append before taking `n` elements
changes nothing: only the first `n` elements matter. -/
theorem take_append_take {α : Type} (X Y : List α) (n : ℕ) :
    (X ++ Y.take n).take n = (X ++ Y).take n := by
  rw [List.take_append_eq_append_take, List.take_append_eq_append_take, List.take_take,
    Nat.min_eq_left (Nat.sub_le n X.length)]

/-- Processing a message stream from any alert list of at most 10 entries
yields the 10 newest alerts of the stream, newest first, ahead of what
survives of the starting list. -/
theorem runAlertsFrom_eq (evs : List Dash.DashMsg) :
    ∀ l : List Dash.DashMsg, l.length ≤ 10 →
      evs.foldl Dash.handleWsMessageAlerts l
        = ((evs.filter (fun m => m.type == "alert")).reverse ++ l).take 10 := by
  induction evs with
  | nil =>
    intro l hl
    simpa using (List.take_of_length_le hl).symm
  | cons d rest ih =>
    intro l hl
    by_cases hd : d.type = "alert"
    · rw [List.foldl_cons, handleWsMessageAlerts_of_alert l d hd,
        ih ((d :: l).take 10) (List.length_take_le 10 (d :: l))]
      have hfil : (d :: rest).filter (fun m => m.type == "alert")
          = d :: rest.filter (fun m => m.type == "alert") := by
        simp [List.filter_cons, hd]
      rw [hfil, List.reverse_cons, List.append_assoc, take_append_take,
        List.singleton_append]
    · rw [List.foldl_cons, handleWsMessageAlerts_of_other l d hd, ih l hl]
      have hfil : (d :: rest).filter (fun m => m.type == "alert")
          = rest.filter (fun m => m.type == "alert") := by
        simp [List.filter_cons, hd]
      rw [hfil]

/-- Claim C9: the Dashboard's alert list never exceeds 10 entries: after
any sequence of incoming WebSocket messages it equals the 10 most recent
alert-typed messages, newest first (older alerts are discarded), and
each alert-typed message is handled by prepending it and truncating the
list to its first 10 elements. -/
theorem alerts_bounded_and_newest_first (evs : List Dash.DashMsg) :
    (Dash.runAlerts evs).length ≤ 10 ∧
    Dash.runAlerts evs
      = ((evs.filter (fun m => m.type == "alert")).reverse).take 10 ∧
    ∀ (l : List Dash.DashMsg) (a : Dash.DashMsg), a.type = "alert" →
      Dash.handleWsMessageAlerts l a = (a :: l).take 10 := by
  have h : Dash.runAlerts evs
      = ((evs.filter (fun m => m.type == "alert")).reverse).take 10 := by
    have h0 := runAlertsFrom_eq evs [] (by simp)
    simpa [Dash.runAlerts] using h0
  refine ⟨?_, h, handleWsMessageAlerts_of_alert⟩
  rw [h]
  exact List.length_take_le 10 _

/-- Claim C9 witness: the alert-branch update evaluated on a concrete
alert event arriving at an empty list. -/
theorem alerts_bounded_and_newest_first_witness :
    ({ type := "alert" } : Dash.DashMsg).type = "alert" ∧
    Dash.handleWsMessageAlerts [] { type := "alert" }
      = ([({ type := "alert" } : Dash.DashMsg)]).take 10 :=
  ⟨rfl, (alerts_bounded_and_newest_first []).2.2 [] { type := "alert" } rfl⟩

/-- The outer loop of `generatePath` emits, for each consecutive pair of
waypoints, the segment between them. -/
theorem pathPoints_eq_flatMap (sinf : ℚ → ℚ) (piq : ℚ) (ws : List PathPlan.Waypoint) :
    PathPlan.pathPoints sinf piq ws
      = (ws.zip ws.tail).flatMap (fun p => PathPlan.segmentPoints sinf piq p.1 p.2) := by
  induction ws with
  | nil => rfl
  | cons a tl ih =>
    cases tl with
    | nil => rfl
    | cons b rest =>
      simp only [PathPlan.pathPoints, List.tail_cons, List.zip_cons_cons,
        List.flatMap_cons]
      rw [ih]
      simp only [List.tail_cons]

/-- Claim C8: for at least two clicked waypoints, `generatePath` builds
its path by emitting, for each consecutive waypoint pair `(a, b)`,
11 points at parameters `t = s / 10` for `s = 0..10`, each the linear
interpolation `a + (b - a) * t` with the sine jitter
`sin(t * π) * 0.0005` added to both coordinates, and the reported
planning time equals `rand * 50 + 10` for the drawn `Math.random()`
sample — a value in `[10, 60)`, not the output of a planning
algorithm. -/
theorem generatePath_interpolation (sinf sqrtf : ℚ → ℚ) (piq rand speed : ℚ)
    (st : PathPlan.PlanState) (h2 : 2 ≤ st.waypoints.length)
    (h0 : 0 ≤ rand) (h1 : rand < 1) :
    (PathPlan.generatePath sinf sqrtf piq rand speed st).plannedPath
      = (st.waypoints.zip st.waypoints.tail).flatMap (fun p =>
          (List.range 11).map (fun s =>
            let t : ℚ := (s : ℚ) / 10
            let jitter : ℚ := sinf (t * piq) * 0.0005
            (p.1.lat + (p.2.lat - p.1.lat) * t + jitter,
             p.1.lng + (p.2.lng - p.1.lng) * t + jitter))) ∧
    ∃ info, (PathPlan.generatePath sinf sqrtf piq rand speed st).pathSummary = some info
      ∧ info.planTime = rand * 50 + 10 ∧ 10 ≤ info.planTime ∧ info.planTime < 60 := by
  have hng : ¬ st.waypoints.length < 2 := not_lt.mpr h2
  have h50 : (0 : ℚ) ≤ rand * 50 := mul_nonneg h0 (by norm_num)
  have h50u : rand * 50 < 50 := by nlinarith
  unfold PathPlan.generatePath
  rw [if_neg hng]
  exact ⟨pathPoints_eq_flatMap sinf piq st.waypoints,
    _, rfl, rfl, by linarith, by linarith⟩

/-- Claim C8 witness: the interpolation theorem applied to a concrete
two-waypoint state with `Math.random()` drawing one half. -/
theorem generatePath_interpolation_witness :
    2 ≤ Inst.st2.waypoints.length ∧ (0 : ℚ) ≤ 1 / 2 ∧ (1 / 2 : ℚ) < 1 ∧
    ∃ info,
      (PathPlan.generatePath Inst.sinf0 Inst.sqrtf0 0 (1 / 2) 8 Inst.st2).pathSummary
        = some info
      ∧ info.planTime = (1 / 2 : ℚ) * 50 + 10 ∧ 10 ≤ info.planTime ∧ info.planTime < 60 :=
  ⟨by decide, by norm_num, by norm_num,
   (generatePath_interpolation Inst.sinf0 Inst.sqrtf0 0 (1 / 2) 8 Inst.st2
     (by decide) (by norm_num) (by norm_num)).2⟩

/-- Claim C2: a transport text frame whose payload fails to parse is
dropped silently — the hook state (including `connected` and
`lastMessage`) is unchanged and the message callback is not invoked —
while a frame that parses updates `lastMessage` and invokes the callback
with the parsed value, leaving `connected` untouched; the handler is a
total function, so no exception propagates. -/
theorem onmessage_parse_behavior {V : Type} (cfg : ReconnectSocket.Config V)
    (s : ReconnectSocket.HState V) (f : String) :
    (cfg.parse f = none →
      ReconnectSocket.step cfg s (ReconnectSocket.Ev.message f) = s) ∧
    (∀ v, cfg.parse f = some v → s.socket = some ReconnectSocket.RS.opened →
      (ReconnectSocket.step cfg s (ReconnectSocket.Ev.message f)).lastMessage = some v ∧
      (ReconnectSocket.step cfg s (ReconnectSocket.Ev.message f)).callbackLog
        = s.callbackLog ++ [v] ∧
      (ReconnectSocket.step cfg s (ReconnectSocket.Ev.message f)).connected
        = s.connected) := by
  constructor
  · intro hn
    simp [ReconnectSocket.step, hn]
  · intro v hv hs
    simp [ReconnectSocket.step, hv, hs]

/-- Claim C2 witness: the message handler evaluated on a frame that
fails to parse and one that parses, in a connected state. -/
theorem onmessage_parse_behavior_witness :
    Inst.cfgJ.parse "junk" = none ∧
    ReconnectSocket.step Inst.cfgJ
        (ReconnectSocket.run Inst.cfgJ true [ReconnectSocket.Ev.openEvt])
        (ReconnectSocket.Ev.message "junk")
      = ReconnectSocket.run Inst.cfgJ true [ReconnectSocket.Ev.openEvt] ∧
    Inst.cfgJ.parse "ok" = some 1 ∧
    (ReconnectSocket.step Inst.cfgJ
        (ReconnectSocket.run Inst.cfgJ true [ReconnectSocket.Ev.openEvt])
        (ReconnectSocket.Ev.message "ok")).lastMessage = some 1 :=
  ⟨rfl,
   (onmessage_parse_behavior Inst.cfgJ
     (ReconnectSocket.run Inst.cfgJ true [ReconnectSocket.Ev.openEvt]) "junk").1 rfl,
   rfl,
   ((onmessage_parse_behavior Inst.cfgJ
     (ReconnectSocket.run Inst.cfgJ true [ReconnectSocket.Ev.openEvt]) "ok").2 1 rfl rfl).1⟩

/-- Claim C5: a `send(data)` call while the transport is not OPEN (no
live ref, or the socket is connecting, closing or closed) is a no-op —
the model is total (nothing is thrown), nothing is transmitted and
nothing is queued, the state being exactly unchanged — while a send on
an OPEN transport transmits the frame: strings verbatim, other values
through the serializer. -/
theorem send_noop_when_not_open {V : Type} (cfg : ReconnectSocket.Config V)
    (s : ReconnectSocket.HState V) (d : ReconnectSocket.SendArg V) :
    (¬(s.wsRef = true ∧ s.socket = some ReconnectSocket.RS.opened) →
      ReconnectSocket.step cfg s (ReconnectSocket.Ev.send d) = s) ∧
    (s.wsRef = true → s.socket = some ReconnectSocket.RS.opened →
      (ReconnectSocket.step cfg s (ReconnectSocket.Ev.send d)).sentFrames
        = s.sentFrames ++ [ReconnectSocket.sendFrame cfg d]) ∧
    (∀ t, ReconnectSocket.sendFrame cfg (ReconnectSocket.SendArg.str t) = t) ∧
    (∀ v, ReconnectSocket.sendFrame cfg (ReconnectSocket.SendArg.val v)
      = cfg.serialize v) := by
  refine ⟨fun h => ?_, fun h1 h2 => ?_, fun t => rfl, fun v => rfl⟩
  · simp only [ReconnectSocket.step, if_neg h]
  · simp [ReconnectSocket.step, h1, h2]

/-- Claim C5 witness: a send in the disconnected initial state (after a
failed constructor) is dropped, and a send on an open transport appends
the frame. -/
theorem send_noop_when_not_open_witness :
    ¬((ReconnectSocket.run Inst.cfg0 false []).wsRef = true ∧
      (ReconnectSocket.run Inst.cfg0 false []).socket
        = some ReconnectSocket.RS.opened) ∧
    ReconnectSocket.step Inst.cfg0 (ReconnectSocket.run Inst.cfg0 false [])
        (ReconnectSocket.Ev.send (ReconnectSocket.SendArg.str "ping"))
      = ReconnectSocket.run Inst.cfg0 false [] ∧
    (ReconnectSocket.step Inst.cfg0
        (ReconnectSocket.run Inst.cfg0 true [ReconnectSocket.Ev.openEvt])
        (ReconnectSocket.Ev.send (ReconnectSocket.SendArg.str "ping"))).sentFrames
      = (ReconnectSocket.run Inst.cfg0 true [ReconnectSocket.Ev.openEvt]).sentFrames
        ++ [ReconnectSocket.sendFrame Inst.cfg0 (ReconnectSocket.SendArg.str "ping")] :=
  ⟨by decide,
   (send_noop_when_not_open Inst.cfg0 (ReconnectSocket.run Inst.cfg0 false [])
     (ReconnectSocket.SendArg.str "ping")).1 (by decide),
   (send_noop_when_not_open Inst.cfg0
     (ReconnectSocket.run Inst.cfg0 true [ReconnectSocket.Ev.openEvt])
     (ReconnectSocket.SendArg.str "ping")).2.1 rfl rfl⟩

/-- Claim C6: `broadcast` attempts delivery to every connection
registered when iteration begins; the connections whose delivery fails
are unregistered as a side effect while delivery to the rest proceeds,
the call is total (no failure raises to the caller), and a subsequent
broadcast no longer attempts the removed connections. -/
theorem broadcast_isolation (deliverOk : Nat → Bool) (conns : List Nat) :
    (Registry.broadcast deliverOk conns).attempted = conns ∧
    (Registry.broadcast deliverOk conns).delivered = conns.filter deliverOk ∧
    (Registry.broadcast deliverOk conns).registry = conns.filter deliverOk ∧
    ∀ c, deliverOk c = false →
      c ∉ (Registry.broadcast deliverOk
        (Registry.broadcast deliverOk conns).registry).attempted := by
  have key : ∀ l : List Nat,
      (Registry.broadcast deliverOk l).attempted = l ∧
      (Registry.broadcast deliverOk l).delivered = l.filter deliverOk ∧
      (Registry.broadcast deliverOk l).registry = l.filter deliverOk := by
    intro l
    induction l with
    | nil => exact ⟨rfl, rfl, rfl⟩
    | cons c rest ih =>
      by_cases hc : deliverOk c = true
      · simp [Registry.broadcast, hc, ih.1, ih.2.1, ih.2.2, List.filter_cons]
      · simp [Registry.broadcast, hc, ih.1, ih.2.1, ih.2.2, List.filter_cons]
  refine ⟨(key conns).1, (key conns).2.1, (key conns).2.2, fun c hc hmem => ?_⟩
  rw [(key _).1, (key conns).2.2] at hmem
  have hmemc := List.of_mem_filter hmem
  rw [hc] at hmemc
  exact Bool.noConfusion hmemc

/-- Claim C6 witness: three registered connections, the second failing:
delivery reaches the first and third, the second is removed, and the
next broadcast does not attempt it. -/
theorem broadcast_isolation_witness :
    Inst.d2 2 = false ∧
    (Registry.broadcast Inst.d2 [1, 2, 3]).delivered = [1, 3] ∧
    (Registry.broadcast Inst.d2 [1, 2, 3]).registry = [1, 3] ∧
    (2 : Nat) ∉ (Registry.broadcast Inst.d2
      (Registry.broadcast Inst.d2 [1, 2, 3]).registry).attempted :=
  ⟨rfl, by decide, by decide, (broadcast_isolation Inst.d2 [1, 2, 3]).2.2.2 2 rfl⟩

/-- A property preserved by every step of a fold holds of the fold's
result whenever it holds of the start. -/
theorem foldl_preserve {α β : Type} (P : β → Prop) (f : β → α → β)
    (hstep : ∀ b a, P b → P (f b a)) :
    ∀ (l : List α) (b : β), P b → P (l.foldl f b)
  | [], _, hb => hb
  | a :: l, b, hb => foldl_preserve P f hstep l (f b a) (hstep b a hb)

/-- `connect` keeps `ConnInv` when invoked on a disconnected state (the
only way the source invokes it). -/
theorem connInv_connect {V : Type} (cfg : ReconnectSocket.Config V) (ok : Bool)
    (s : ReconnectSocket.HState V) (hc : s.connected = false) :
    ConnInv (ReconnectSocket.connect cfg ok s) := by
  unfold ReconnectSocket.connect ConnInv
  split_ifs <;> simp [hc]

/-- Every event of the hook preserves `ConnInv`. -/
theorem connInv_step {V : Type} (cfg : ReconnectSocket.Config V)
    (s : ReconnectSocket.HState V) (e : ReconnectSocket.Ev V)
    (h : ConnInv s) : ConnInv (ReconnectSocket.step cfg s e) := by
  cases e with
  | openEvt =>
    by_cases hs : s.socket = some ReconnectSocket.RS.connecting
    · simp [ReconnectSocket.step, hs, ConnInv]
    · simpa [ReconnectSocket.step, hs] using h
  | message f =>
    by_cases hs : s.socket = some ReconnectSocket.RS.opened
    · cases hp : cfg.parse f with
      | none => simpa [ReconnectSocket.step, hs, hp] using h
      | some v =>
        intro hc
        have hc2 : s.connected = true := by
          simpa [ReconnectSocket.step, hs, hp] using hc
        have := h hc2
        simpa [ReconnectSocket.step, hs, hp] using this
    · simpa [ReconnectSocket.step, hs] using h
  | closeEvt =>
    cases hs : s.socket with
    | none => simpa [ReconnectSocket.step, hs] using h
    | some rs =>
      cases rs with
      | closed =>
        intro hc
        have hc2 : s.connected = true := by
          simpa [ReconnectSocket.step, hs] using hc
        have := h hc2
        simpa [ReconnectSocket.step, hs] using this
      | connecting => simp [ReconnectSocket.step, hs, ConnInv]
      | opened => simp [ReconnectSocket.step, hs, ConnInv]
      | closing => simp [ReconnectSocket.step, hs, ConnInv]
  | errorEvt =>
    cases hs : s.socket with
    | none => simpa [ReconnectSocket.step, hs] using h
    | some rs =>
      cases rs <;> simpa [ReconnectSocket.step, hs] using h
  | timerFire ok =>
    by_cases ht : s.reconnectTimer.isSome
    · have hc : s.connected = false := by
        cases hcc : s.connected
        · rfl
        · rw [h hcc] at ht
          simp at ht
      simp only [ReconnectSocket.step, if_pos ht]
      exact connInv_connect cfg ok _ hc
    · simpa [ReconnectSocket.step, ht] using h
  | cleanup =>
    by_cases hw : s.wsRef
    · simp [ReconnectSocket.step, hw, ConnInv]
    · simp [ReconnectSocket.step, hw, ConnInv]
  | send d =>
    by_cases hs : s.wsRef = true ∧ s.socket = some ReconnectSocket.RS.opened
    · intro hc
      have hc2 : s.connected = true := by
        simpa [ReconnectSocket.step, hs] using hc
      have := h hc2
      simpa [ReconnectSocket.step, hs] using this
    · simpa [ReconnectSocket.step, hs] using h

/-- Every reachable state of the hook satisfies `ConnInv`. -/
theorem connInv_run {V : Type} (cfg : ReconnectSocket.Config V) (ctorOk : Bool)
    (evs : List (ReconnectSocket.Ev V)) : ConnInv (ReconnectSocket.run cfg ctorOk evs) := by
  unfold ReconnectSocket.run
  exact foldl_preserve ConnInv (ReconnectSocket.step cfg)
    (fun b a hb => connInv_step cfg b a hb) evs _
    (connInv_connect cfg ctorOk (ReconnectSocket.init V) rfl)

/-- Claim C4: in every execution of the hook, whenever the socket is in
the Connected state there is no pending reconnect timer — a successful
open clears any timer left over from failed attempts — and consequently
no timer callback can fire while Connected, so no duplicate connection
attempt occurs. -/
theorem connected_no_pending_timer {V : Type} (cfg : ReconnectSocket.Config V)
    (ctorOk : Bool) (evs : List (ReconnectSocket.Ev V))
    (hc : (ReconnectSocket.run cfg ctorOk evs).connected = true) :
    (ReconnectSocket.run cfg ctorOk evs).reconnectTimer = none ∧
    ∀ ok, ReconnectSocket.step cfg (ReconnectSocket.run cfg ctorOk evs)
        (ReconnectSocket.Ev.timerFire ok)
      = ReconnectSocket.run cfg ctorOk evs := by
  have ht := connInv_run cfg ctorOk evs hc
  refine ⟨ht, fun ok => ?_⟩
  simp [ReconnectSocket.step, ht]

/-- Claim C4 witness: a freshly opened connection has no pending timer. -/
theorem connected_no_pending_timer_witness :
    (ReconnectSocket.run Inst.cfg0 true [ReconnectSocket.Ev.openEvt]).connected = true ∧
    (ReconnectSocket.run Inst.cfg0 true [ReconnectSocket.Ev.openEvt]).reconnectTimer
      = none :=
  ⟨rfl, (connected_no_pending_timer Inst.cfg0 true [ReconnectSocket.Ev.openEvt] rfl).1⟩

/-- `connect` keeps `TimerInv`: the only timeout it schedules uses the
configured interval. -/
theorem timerInv_connect {V : Type} (cfg : ReconnectSocket.Config V) (ok : Bool)
    (s : ReconnectSocket.HState V) (h : TimerInv cfg s) :
    TimerInv cfg (ReconnectSocket.connect cfg ok s) := by
  unfold ReconnectSocket.connect
  split_ifs <;> first | exact h | (intro d hd; simp_all)

/-- Every event of the hook preserves `TimerInv`: each scheduling site
uses `setTimeout(connect, reconnectInterval)` with the configured
interval. -/
theorem timerInv_step {V : Type} (cfg : ReconnectSocket.Config V)
    (s : ReconnectSocket.HState V) (e : ReconnectSocket.Ev V)
    (h : TimerInv cfg s) : TimerInv cfg (ReconnectSocket.step cfg s e) := by
  cases e with
  | openEvt =>
    by_cases hs : s.socket = some ReconnectSocket.RS.connecting
    · simp [ReconnectSocket.step, hs, TimerInv]
    · simpa [ReconnectSocket.step, hs] using h
  | message f =>
    by_cases hs : s.socket = some ReconnectSocket.RS.opened
    · cases hp : cfg.parse f with
      | none => simpa [ReconnectSocket.step, hs, hp] using h
      | some v =>
        intro d hd
        refine h d ?_
        simpa [ReconnectSocket.step, hs, hp] using hd
    · simpa [ReconnectSocket.step, hs] using h
  | closeEvt =>
    cases hs : s.socket with
    | none => simpa [ReconnectSocket.step, hs] using h
    | some rs =>
      by_cases he : cfg.enabled = true
      · cases rs <;> intro d hd <;>
          first
            | exact h d (by simpa [ReconnectSocket.step, hs] using hd)
            | (simp [ReconnectSocket.step, hs, he] at hd
               first | exact hd | simp [hd])
      · cases rs <;> intro d hd <;>
          exact h d (by simpa [ReconnectSocket.step, hs, he] using hd)
  | errorEvt =>
    cases hs : s.socket with
    | none => simpa [ReconnectSocket.step, hs] using h
    | some rs =>
      cases rs <;> intro d hd <;>
        exact h d (by simpa [ReconnectSocket.step, hs] using hd)
  | timerFire ok =>
    by_cases ht : s.reconnectTimer.isSome
    · simp only [ReconnectSocket.step, if_pos ht]
      refine timerInv_connect cfg ok _ ?_
      intro d hd
      simp at hd
    · simpa [ReconnectSocket.step, ht] using h
  | cleanup =>
    by_cases hw : s.wsRef
    · simp [ReconnectSocket.step, hw, TimerInv]
    · simp [ReconnectSocket.step, hw, TimerInv]
  | send d =>
    by_cases hs : s.wsRef = true ∧ s.socket = some ReconnectSocket.RS.opened
    · intro d2 hd
      refine h d2 ?_
      simpa [ReconnectSocket.step, hs] using hd
    · simpa [ReconnectSocket.step, hs] using h

/-- Every reachable state of the hook satisfies `TimerInv`. -/
theorem timerInv_run {V : Type} (cfg : ReconnectSocket.Config V) (ctorOk : Bool)
    (evs : List (ReconnectSocket.Ev V)) :
    TimerInv cfg (ReconnectSocket.run cfg ctorOk evs) := by
  unfold ReconnectSocket.run
  exact foldl_preserve (TimerInv cfg) (ReconnectSocket.step cfg)
    (fun b a hb => timerInv_step cfg b a hb) evs _
    (timerInv_connect cfg ctorOk (ReconnectSocket.init V)
      (fun d hd => by simp [ReconnectSocket.init] at hd))

/-- Claim C3: every reconnect attempt of the hook is scheduled after the
fixed configured `reconnectInterval` (the `Config` default is 3000 ms):
in any execution any pending timer carries exactly that delay — the
delay does not grow across consecutive failures — and delivering a close
event to a non-terminated socket (transport close, or the close
following a transport error) schedules a reconnect with exactly that
delay. -/
theorem reconnect_fixed_interval {V : Type} (cfg : ReconnectSocket.Config V)
    (ctorOk : Bool) (evs : List (ReconnectSocket.Ev V)) (he : cfg.enabled = true) :
    (∀ d, (ReconnectSocket.run cfg ctorOk evs).reconnectTimer = some d →
      d = cfg.reconnectInterval) ∧
    (∀ rs, (ReconnectSocket.run cfg ctorOk evs).socket = some rs →
      rs ≠ ReconnectSocket.RS.closed →
      (ReconnectSocket.step cfg (ReconnectSocket.run cfg ctorOk evs)
        ReconnectSocket.Ev.closeEvt).reconnectTimer = some cfg.reconnectInterval) ∧
    (∀ (u : String) (p : String → Option V) (g : V → String),
      ({ url := u, parse := p, serialize := g } : ReconnectSocket.Config V).reconnectInterval
        = 3000) := by
  refine ⟨timerInv_run cfg ctorOk evs, fun rs hrs hne => ?_, fun u p g => rfl⟩
  cases rs with
  | closed => exact absurd rfl hne
  | connecting => simp [ReconnectSocket.step, hrs, he]
  | opened => simp [ReconnectSocket.step, hrs, he]
  | closing => simp [ReconnectSocket.step, hrs, he]

/-- Claim C3 witness: a failed constructor at mount leaves a pending
timer whose delay is the configured (default) 3000 ms interval. -/
theorem reconnect_fixed_interval_witness :
    Inst.cfg0.enabled = true ∧
    (ReconnectSocket.run Inst.cfg0 false []).reconnectTimer = some 3000 ∧
    (3000 : Nat) = Inst.cfg0.reconnectInterval :=
  ⟨rfl, rfl, (reconnect_fixed_interval Inst.cfg0 false [] rfl).1 3000 rfl⟩
